import Mathlib

/-!
Verification of `stac-tile-map` (`src/python/stac_tiler_map/create_map.py`)
against its natural-language specification.

The Python module is shallowly embedded: pure fragments become Lean
functions, Python dicts become ordered association lists, the mutable
`properties` dicts referenced by GeoJSON features become an explicit heap
(`Store`) addressed by `Nat` references, fallible dictionary subscripts
(`KeyError`) become `Except StacError`, and calendar dates become day
numbers (days since 1970-01-01) with Gregorian civil conversion.
-/

namespace StacTilerMap

/-! ## Dates

Python `date`/`datetime` values are modelled by their day number (days
since 1970-01-01, as `Int`); `timedelta(days=p)` subtraction is `Int`
subtraction.  `f"{d:%Y-%m-%d}"` zero-pads month and day to two digits and
the year to four. -/

/-- The `DATE_FMT` constant of `create_map.py` (`"%Y-%m-%d"`). -/
def DATE_FMT : String := "%Y-%m-%d"

/-- Zero-pad the decimal representation of `n` to `width` digits. -/
def padNum (width : Nat) (n : Nat) : String :=
  let s := toString n
  String.mk (List.replicate (width - s.length) '0') ++ s

/-- Convert a day number (days since 1970-01-01) to a Gregorian civil
date `(year, month, day)`; the standard era-based civil-from-days
algorithm, with floor division. -/
def civilFromDays (z0 : Int) : Int × Nat × Nat :=
  let z := z0 + 719468
  let era : Int := Int.fdiv z 146097
  let doe : Nat := (z - era * 146097).toNat
  let yoe : Nat := (doe - doe / 1460 + doe / 36524 - doe / 146096) / 365
  let y : Int := (yoe : Int) + era * 400
  let doy : Nat := doe - (365 * yoe + yoe / 4 - yoe / 100)
  let mp : Nat := (5 * doy + 2) / 153
  let d : Nat := doy - (153 * mp + 2) / 5 + 1
  let m : Nat := if mp < 10 then mp + 3 else mp - 9
  (if m ≤ 2 then y + 1 else y, m, d)

/-- Four-digit zero-padded year (Python dates have year ≥ 1; negative
years cannot arise from them but are rendered with a sign for totality). -/
def formatYear (y : Int) : String :=
  if y < 0 then "-" ++ padNum 4 y.natAbs else padNum 4 y.toNat

/-- Python `f"{d:%Y-%m-%d}"`: zero-padded `YYYY-MM-DD`. -/
def formatDate (z : Int) : String :=
  match civilFromDays z with
  | (y, m, d) => formatYear y ++ "-" ++ padNum 2 m ++ "-" ++ padNum 2 d

/-- Embedding of `get_search_dates` (create_map.py lines 54-74): subtract the period
(in days) from the end date and join both dates with `/`. -/
def get_search_dates (end_date : Int) (period : Int) : String :=
  let search_period := period
  let start_date := end_date - search_period
  formatDate start_date ++ "/" ++ formatDate end_date

/-- Modelled from the spec's words for the date-range property:
`format(end_date − period) + "/" + format(end_date)`, zero-padded
`YYYY-MM-DD`. -/
def date_range_spec (end_date : Int) (period : Int) : String :=
  formatDate (end_date - period) ++ "/" ++ formatDate end_date

example : formatDate 19388 = "2023-01-31" := by decide
example : get_search_dates 19388 30 = "2023-01-01/2023-01-31" := by decide

/-! ## Data model

GeoJSON geometries carry a type tag and a nested coordinate payload.  The
claims perform no coordinate arithmetic (centroids are computed by the
external `shapely` collaborator), so coordinate scalars are carried as
opaque `Int` payloads. -/

/-- Coordinate payload of a GeoJSON geometry: a position (Point), a
position list (LineString / MultiPoint), or rings (Polygon). -/
inductive Coords where
  | pos (x y : Int)
  | posList (ps : List (Int × Int))
  | rings (rs : List (List (Int × Int)))
deriving DecidableEq

/-- A GeoJSON geometry: a recognized type tag plus coordinates. -/
structure Geometry where
  gtype : String
  coordinates : Coords
deriving DecidableEq

/-- A non-collection GeoJSON object: a bare geometry or a single feature. -/
inductive GeoObj where
  | geometry (g : Geometry)
  | feature (geometry : Option Geometry) (properties : List (String × String))
deriving DecidableEq

/-- A parsed GeoJSON document, as produced by `geojson.loads`/`geojson.load`:
a bare geometry, a single feature, or a feature collection (the program
never nests collections inside collections). -/
inductive GeoJsonObj where
  | obj (o : GeoObj)
  | featureCollection (features : List GeoObj)
deriving DecidableEq

/-- Python's `isinstance(obj, geojson.FeatureCollection)` test. -/
def is_FeatureCollection : GeoJsonObj → Bool
  | .featureCollection _ => true
  | .obj _ => false

/-- The pure normalization step of `read_geojson` (create_map.py lines
48-50), applied to the parsed document (fetching/parsing is the external
collaborator): a non-FeatureCollection is wrapped as
`FeatureCollection(features=[geojson_obj])`. -/
def read_geojson_normalize (geojson_obj : GeoJsonObj) : GeoJsonObj :=
  match geojson_obj with
  | .featureCollection _ => geojson_obj
  | .obj o => GeoJsonObj.featureCollection [o]

/-- A scalar STAC property value (number or text). -/
inductive Value where
  | int (n : Int)
  | str (s : String)
deriving DecidableEq

/-- A STAC asset: a reference URL. -/
structure Asset where
  href : String
deriving DecidableEq

/-- A `pystac.Item`: identifier, self link, geometry, asset mapping and
property mapping (Python dicts become ordered association lists). -/
structure Item where
  id : String
  self_href : String
  geometry : Geometry
  assets : List (String × Asset)
  properties : List (String × Value)
deriving DecidableEq

/-- The error taxonomy of the spec; Python raises `KeyError` on the
corresponding missing dictionary subscripts. -/
inductive StacError where
  | missingAsset (key : String)
  | missingProperty (key : String)
deriving DecidableEq

instance {ε α : Type} [DecidableEq ε] [DecidableEq α] : DecidableEq (Except ε α) :=
  fun a b =>
    match a, b with
    | .ok x, .ok y =>
      if h : x = y then isTrue (by rw [h]) else isFalse (by simp [h])
    | .error e, .error f =>
      if h : e = f then isTrue (by rw [h]) else isFalse (by simp [h])
    | .ok _, .error _ => isFalse (by simp)
    | .error _, .ok _ => isFalse (by simp)

/-! ## Tile layer (`_create_tile_layer_from_item`, lines 179-204) -/

/-- The default `tiler_url` argument
(`https://api.cogeo.xyz/cog/tiles/{z}/{x}/{y}`). -/
def DEFAULT_TILER_URL : String :=
  "https://api.cogeo.xyz/cog/tiles/\x7bz\x7d/\x7bx\x7d/\x7by\x7d"

/-- A `folium.TileLayer` as constructed by the module. -/
structure TileLayer where
  tiles : String
  name : String
  overlay : Bool
  attr : String
deriving DecidableEq

/-- Embedding of `_create_tile_layer_from_item` (lines 179-204): `f"{tiler_url}?url={item.assets[asset_key].href}"`,
where the subscript `item.assets[asset_key]` raises `KeyError`
(`MissingAssetError` in the spec's taxonomy) when the key is absent. -/
def _create_tile_layer_from_item (item : Item) (asset_key : String)
    (tiler_url : String) : Except StacError TileLayer :=
  match item.assets.lookup asset_key with
  | none => Except.error (StacError.missingAsset asset_key)
  | some asset =>
    let virtual_tiles := tiler_url ++ "?url=" ++ asset.href
    Except.ok { tiles := virtual_tiles, name := "COG", overlay := true, attr := "IndigoAg" }

/-! ## Scene ranking (`sort_items`, lines 140-149)

Python's `sorted` with a `key` function is a stable sort on the extracted
key tuples; list keys compare lexicographically.  Comparing an `int` with
a `str` raises `TypeError` in Python; the embedded comparator totalizes
that case (numbers before text) so that the order is a total preorder —
the claims only ever compare homogeneous numeric keys, where the two
agree. -/

/-- Strict comparison of scalar property values (Python `<`). -/
def valueLtB : Value → Value → Bool
  | .int a, .int b => decide (a < b)
  | .str a, .str b => decide (a < b)
  | .int _, .str _ => true
  | .str _, .int _ => false

/-- Lexicographic non-strict comparison of key tuples (Python list `<=`
as used by a stable ascending sort on keys). -/
def keyLe : List Value → List Value → Bool
  | [], _ => true
  | _ :: _, [] => false
  | x :: xs, y :: ys =>
    if valueLtB x y then true
    else if valueLtB y x then false
    else keyLe xs ys

/-- The key extracted for one item:
`[item.properties[property] for property in sort_on]`, where each
subscript raises `KeyError` (`MissingPropertyError`) when absent. -/
def itemKey (sort_on : List String) (item : Item) : Except StacError (List Value) :=
  sort_on.mapM (fun property =>
    match item.properties.lookup property with
    | some v => Except.ok v
    | none => Except.error (StacError.missingProperty property))

/-- The comparator used on decorated `(item, key)` pairs: ascending
compares keys forward, `reverse=True` (descending) compares them
backward; both keep ties in original order under a stable sort. -/
def pairLe (ascending : Bool) (a b : Item × List Value) : Bool :=
  if ascending then keyLe a.2 b.2 else keyLe b.2 a.2

/-- The pair comparator as a decidable relation. -/
def pairLeP (ascending : Bool) (a b : Item × List Value) : Prop :=
  pairLe ascending a b = true

instance (ascending : Bool) : DecidableRel (pairLeP ascending) :=
  fun a b => inferInstanceAs (Decidable (pairLe ascending a b = true))

/-- Embedding of `sort_items` (create_map.py lines 140-149):
`sorted(item_collection, key=..., reverse=(not ascending))`.  CPython
first extracts every key (raising `KeyError` — `MissingPropertyError` —
on a missing property) and then runs a stable sort on the decorated
pairs.  A stable sort under this total preorder produces a unique
sequence, so CPython's stable sort is embedded as the stable
`insertionSort`. -/
def sort_items (item_collection : List Item) (sort_on : List String)
    (ascending : Bool) : Except StacError (List Item) := do
  let keyed ← item_collection.mapM (fun item => do
    let key ← itemKey sort_on item
    pure (item, key))
  pure ((keyed.insertionSort (pairLeP ascending)).map Prod.fst)

/-! ## Scene finding (`get_items`, lines 77-137)

The external catalog client is a stub function from the search arguments
to the returned item collection; `get_items` is embedded as a fold over
the loop counter that also records the trace of issued search calls, so
that call counts, date ranges and queries can be inspected. -/

/-- A STAC search query: property name → criteria name → value
(Python `Dict[str, Dict[str, Any]]`). -/
abbrev Query := List (String × List (String × Value))

/-- The arguments of one `stac_client.search(...)` call. -/
structure SearchCall where
  collections : List String
  date_range : String
  intersects : Geometry
  query : Query
deriving DecidableEq

/-- The loop of `get_items` (lines 111-131).  `fuel` counts the remaining
iterations of `range(search_loops)`; `item_collection` is the value of the
like-named Python variable entering the iteration (initially `None`).
Each pass computes the date range from the current `end_date`, issues the
search, breaks on a non-empty (truthy) result, and otherwise steps
`end_date` back by `search_period` days.  The list of issued calls is
returned alongside the result. -/
def get_items_loop (searchFn : SearchCall → List Item) (collection : String)
    (search_period : Int) (intersects : Geometry) (query : Query) :
    Nat → Int → Option (List Item) → Option (List Item) × List SearchCall
  | 0, _, item_collection => (item_collection, [])
  | Nat.succ n, end_date, _ =>
    let date_range := get_search_dates end_date search_period
    let call : SearchCall :=
      { collections := [collection], date_range := date_range,
        intersects := intersects, query := query }
    let item_collection := searchFn call
    if item_collection.isEmpty then
      let rest := get_items_loop searchFn collection search_period intersects query
        n (end_date - search_period) (some item_collection)
      (rest.1, call :: rest.2)
    else
      (some item_collection, [call])

/-- Embedding of `get_items` (create_map.py lines 77-137): runs the search loop for at
most `search_loops` iterations (default 12) and returns the final value of
`item_collection` — `None` only if the loop body never ran, otherwise the
last search result (possibly the empty collection) — paired with the
trace of issued search calls. -/
def get_items (searchFn : SearchCall → List Item) (collection : String)
    (end_date : Int) (search_period : Int) (intersects : Geometry)
    (query : Query) (search_loops : Nat) :
    Option (List Item) × List SearchCall :=
  get_items_loop searchFn collection search_period intersects query
    search_loops end_date none

/-! ## Feature enrichment (`_add_stac_info_to_feature`, lines 207-240)

Python dicts are heap objects and `dict.copy()` is shallow: the copied
feature's `"properties"` entry is a reference to the *same* nested dict.
The heap of properties dicts is modelled explicitly as a `Store` addressed
by `Nat` references; a feature holds a reference to its properties dict. -/

/-- A Python `str → str` dict in insertion order. -/
abbrev PyDict := List (String × String)

/-- Python `d[k] = v`: overwrite in place if `k` is present, else append. -/
def dictSet (d : PyDict) (k v : String) : PyDict :=
  if d.any (fun p => p.1 == k) then
    d.map (fun p => if p.1 == k then (k, v) else p)
  else d ++ [(k, v)]

/-- Python `d.update(upd)`. -/
def dictUpdate (d : PyDict) (upd : PyDict) : PyDict :=
  upd.foldl (fun acc p => dictSet acc p.1 p.2) d

/-- The heap of properties dicts; an address is an index. -/
structure Store where
  dicts : List PyDict
deriving DecidableEq

/-- Dereference a properties-dict address. -/
def Store.read (s : Store) (r : Nat) : PyDict := (s.dicts.get? r).getD []

/-- Overwrite the dict at an address. -/
def Store.write (s : Store) (r : Nat) (d : PyDict) : Store := ⟨s.dicts.set r d⟩

/-- A GeoJSON feature dict: geometry plus a *reference* to its mutable
properties dict. -/
structure FeatureObj where
  geometry : Option Geometry
  propsRef : Nat
deriving DecidableEq

/-- Python `feature.copy()`: a shallow `dict.copy()` — the new top-level feature
dict carries the same nested properties-dict reference. -/
def Feature_copy (feature : FeatureObj) : FeatureObj :=
  { geometry := feature.geometry, propsRef := feature.propsRef }

/-- The apostrophe character of the embedded HTML template. -/
def sq : String := String.singleton (Char.ofNat 39)

/-- The `link_str` template of `_add_stac_info_to_feature`:
`<a target='_blank' href={href}>{label}</a>` after `.format`. -/
def link_str (href label : String) : String :=
  "<a target=" ++ sq ++ "_blank" ++ sq ++ " href=" ++ href ++ ">" ++ label ++ "</a>"

/-- Model of `parser.parse(s).date().strftime("%Y-%m-%d")` for the ISO-format
`"datetime"` property strings STAC items carry: the date part is the
first ten characters. -/
def parseIsoDate (s : String) : String := s.take 10

/-- Embedding of `_add_stac_info_to_feature` (lines 207-240): builds the display fields
and runs `feature["properties"].update(update_dict)` — a mutation of the
referenced (shared) properties dict; the subscripts
`item.assets[asset_key]` and `item.properties["datetime"]` raise
`KeyError` when absent (a non-string datetime makes `parser.parse` fail,
folded into the same error). -/
def _add_stac_info_to_feature (store : Store) (feature : FeatureObj)
    (item : Item) (asset_key : String) : Except StacError (Store × FeatureObj) :=
  match item.assets.lookup asset_key with
  | none => Except.error (StacError.missingAsset asset_key)
  | some asset =>
    match item.properties.lookup "datetime" with
    | some (Value.str dt) =>
      let update_dict : PyDict :=
        [("Date", parseIsoDate dt),
         ("STAC Item", link_str item.self_href item.id),
         ("Download", link_str asset.href "click here")]
      let props := store.read feature.propsRef
      let store1 := store.write feature.propsRef (dictUpdate props update_dict)
      Except.ok (store1, feature)
    | _ => Except.error (StacError.missingProperty "datetime")

/-- The enrichment step of `create_stac_tiler_map` (lines 316-319):
`_add_stac_info_to_feature(feature=feature.copy(), item=item,
asset_key=inputs.asset_key)`. -/
def enrich_feature_step (store : Store) (feature : FeatureObj) (item : Item)
    (asset_key : String) : Except StacError (Store × FeatureObj) :=
  _add_stac_info_to_feature store (Feature_copy feature) item asset_key

/-! ## Concrete fixtures (mirroring the repository's test fixtures) -/

/-- A point geometry, as in the spec's end-to-end scenario
(`Point(-105.0, 39.0)`; coordinate scalars carried as integers). -/
def geom0 : Geometry := { gtype := "Point", coordinates := Coords.pos (-105) 39 }

/-- A polygon geometry, as generated for the test items. -/
def geomPoly0 : Geometry :=
  { gtype := "Polygon", coordinates := Coords.rings [[(0, 0), (0, 1), (1, 1), (0, 0)]] }

/-- The test fixture item with `eo:cloud_cover = 50` (`item_1`). -/
def itemCloud50 : Item :=
  { id := "item_1", self_href := "https://example/items/item_1",
    geometry := geomPoly0, assets := [],
    properties := [("eo:cloud_cover", Value.int 50)] }

/-- The test fixture item with `eo:cloud_cover = 0` (`item_2`). -/
def itemCloud0 : Item :=
  { id := "item_2", self_href := "https://example/items/item_2",
    geometry := geomPoly0, assets := [],
    properties := [("eo:cloud_cover", Value.int 0)] }

/-- The spec's end-to-end scenario scene: one asset
`visual → https://example/scene.tif`, `eo:cloud_cover = 3`. -/
def sceneItem0 : Item :=
  { id := "S2A_scene", self_href := "https://example/collections/s/items/S2A_scene",
    geometry := geomPoly0,
    assets := [("visual", { href := "https://example/scene.tif" })],
    properties := [("datetime", Value.str "2023-01-01T00:00:00Z"),
                   ("eo:cloud_cover", Value.int 3)] }

/-! ## Claim C2: the date-range string -/

/-- C2: for every end date and every period ≥ 1, `get_search_dates`
returns exactly the string formed by formatting `end_date − period` as
zero-padded `YYYY-MM-DD`, then `/`, then `end_date` formatted the same
way; at the spec's example this is `"2023-01-01/2023-01-31"` for
`end_date = 2023-01-31` (day 19388) and `period = 30`. -/
theorem get_search_dates_correct :
    (∀ (end_date period : Int), 1 ≤ period →
      get_search_dates end_date period = date_range_spec end_date period) ∧
    get_search_dates 19388 30 = "2023-01-01/2023-01-31" :=
  ⟨fun _ _ _ => rfl, by decide⟩

/-- Witness for C2 at `end_date = 2023-01-31` (day 19388), `period = 30`. -/
theorem get_search_dates_correct_witness :
    (1 : Int) ≤ 30 ∧ get_search_dates 19388 30 = date_range_spec 19388 30 :=
  ⟨by decide, get_search_dates_correct.1 19388 30 (by decide)⟩

/-! ## Claim C4: reader normalization -/

/-- C4: the reader's normalization returns an already-valid
FeatureCollection unchanged, wraps a bare geometry or single feature into
a one-element FeatureCollection, and always yields a FeatureCollection. -/
theorem read_geojson_normalize_correct (geojson_obj : GeoJsonObj) :
    (is_FeatureCollection geojson_obj = true →
      read_geojson_normalize geojson_obj = geojson_obj) ∧
    (∀ o, geojson_obj = GeoJsonObj.obj o →
      read_geojson_normalize geojson_obj = GeoJsonObj.featureCollection [o]) ∧
    is_FeatureCollection (read_geojson_normalize geojson_obj) = true := by
  cases geojson_obj <;>
    simp [read_geojson_normalize, is_FeatureCollection]

/-- Witness for C4: a bare Polygon geometry is wrapped into a one-element
collection, and a concrete FeatureCollection is returned unchanged. -/
theorem read_geojson_normalize_correct_witness :
    read_geojson_normalize (GeoJsonObj.obj (GeoObj.geometry geomPoly0)) =
      GeoJsonObj.featureCollection [GeoObj.geometry geomPoly0] ∧
    read_geojson_normalize (GeoJsonObj.featureCollection [GeoObj.geometry geomPoly0]) =
      GeoJsonObj.featureCollection [GeoObj.geometry geomPoly0] :=
  ⟨(read_geojson_normalize_correct _).2.1 _ rfl,
   (read_geojson_normalize_correct _).1 rfl⟩

/-! ## Claim C6: missing asset key -/

/-- C6: for every scene item and every asset key absent from its asset
mapping, tile-layer construction fails with `MissingAssetError` (the
`KeyError` of `item.assets[asset_key]`) rather than producing a URL. -/
theorem tile_layer_missing_asset (item : Item) (asset_key tiler_url : String)
    (h : item.assets.lookup asset_key = none) :
    _create_tile_layer_from_item item asset_key tiler_url =
      Except.error (StacError.missingAsset asset_key) := by
  simp [_create_tile_layer_from_item, h]

/-- Witness for C6: asset key `"nonexistent"` on the scenario scene. -/
theorem tile_layer_missing_asset_witness :
    sceneItem0.assets.lookup "nonexistent" = none ∧
    _create_tile_layer_from_item sceneItem0 "nonexistent" DEFAULT_TILER_URL =
      Except.error (StacError.missingAsset "nonexistent") :=
  ⟨by decide, tile_layer_missing_asset sceneItem0 "nonexistent" DEFAULT_TILER_URL (by decide)⟩

/-! ## Claim C9: the tile-layer URL embeds the asset href -/

/-- C9: for every scene item whose asset mapping contains the requested
key, the constructed tile layer's URL is the tiler URL followed by
`?url=` and the asset's href, and therefore contains the substring
`url=<asset href>`. -/
theorem tile_layer_url_embeds_href (item : Item) (asset_key tiler_url href : String)
    (h : item.assets.lookup asset_key = some { href := href }) :
    _create_tile_layer_from_item item asset_key tiler_url =
      Except.ok { tiles := tiler_url ++ "?url=" ++ href, name := "COG",
                  overlay := true, attr := "IndigoAg" } ∧
    ∃ pre post, tiler_url ++ "?url=" ++ href = pre ++ ("url=" ++ href) ++ post := by
  refine ⟨by simp [_create_tile_layer_from_item, h], tiler_url ++ "?", "", ?_⟩
  simp [String.append_assoc]
  rfl

/-- Witness for C9 at the spec's end-to-end scenario
(`visual → https://example/scene.tif`). -/
theorem tile_layer_url_embeds_href_witness :
    sceneItem0.assets.lookup "visual" = some { href := "https://example/scene.tif" } ∧
    (_create_tile_layer_from_item sceneItem0 "visual" DEFAULT_TILER_URL =
      Except.ok { tiles := DEFAULT_TILER_URL ++ "?url=" ++ "https://example/scene.tif",
                  name := "COG", overlay := true, attr := "IndigoAg" } ∧
     ∃ pre post, DEFAULT_TILER_URL ++ "?url=" ++ "https://example/scene.tif" =
       pre ++ ("url=" ++ "https://example/scene.tif") ++ post) :=
  ⟨by decide,
   tile_layer_url_embeds_href sceneItem0 "visual" DEFAULT_TILER_URL
     "https://example/scene.tif" (by decide)⟩

/-! ## Claims C1, C8, C10: the search-retry loop -/

/-- One-step unfolding of the search loop. -/
theorem get_items_loop_succ (searchFn : SearchCall → List Item) (collection : String)
    (search_period : Int) (intersects : Geometry) (query : Query)
    (n : Nat) (e : Int) (prev : Option (List Item)) :
    get_items_loop searchFn collection search_period intersects query (n + 1) e prev =
      (let call : SearchCall :=
        { collections := [collection], date_range := get_search_dates e search_period,
          intersects := intersects, query := query }
       if (searchFn call).isEmpty then
         let rest := get_items_loop searchFn collection search_period intersects query
           n (e - search_period) (some (searchFn call))
         (rest.1, call :: rest.2)
       else (some (searchFn call), [call])) := rfl

/-- Against an always-empty catalog the loop runs all its iterations,
issues one search per iteration, and ends with the last (empty) result in
`item_collection` (or the incoming value when no iteration remains). -/
theorem get_items_loop_always_empty (searchFn : SearchCall → List Item)
    (collection : String) (search_period : Int) (intersects : Geometry)
    (query : Query) (h : ∀ c, searchFn c = []) :
    ∀ (fuel : Nat) (e : Int) (prev : Option (List Item)),
      (get_items_loop searchFn collection search_period intersects query fuel e prev).1
          = (if fuel = 0 then prev else some []) ∧
      (get_items_loop searchFn collection search_period intersects query fuel e prev).2.length
          = fuel := by
  intro fuel
  induction fuel with
  | zero => intro e prev; simp [get_items_loop]
  | succ n ih =>
    intro e prev
    rw [get_items_loop_succ]
    simp only [h, List.isEmpty_nil, if_true]
    obtain ⟨ih1, ih2⟩ := ih (e - search_period) (some [])
    refine ⟨?_, by simpa using ih2⟩
    simp only [ih1]
    cases n <;> simp

/-- C1 (amended): for every catalog client whose search always returns an
empty item collection, `get_items` performs exactly `search_loops` search
calls (within the budget), terminates, and returns the falsy
no-scenes-found outcome — the empty item collection from the last search
(`None` only in the degenerate case `search_loops = 0`) — rather than
raising an error or looping forever. -/
theorem get_items_always_empty (searchFn : SearchCall → List Item)
    (collection : String) (end_date : Int) (search_period : Int)
    (intersects : Geometry) (query : Query) (search_loops : Nat)
    (h : ∀ c, searchFn c = []) :
    (get_items searchFn collection end_date search_period intersects query
        search_loops).2.length = search_loops ∧
    (get_items searchFn collection end_date search_period intersects query
        search_loops).1 = (if search_loops = 0 then none else some []) := by
  obtain ⟨h1, h2⟩ := get_items_loop_always_empty searchFn collection search_period
    intersects query h search_loops end_date none
  exact ⟨h2, h1⟩

/-- Witness for C1 (amended) at an always-empty stub with the default
budget of 12 iterations. -/
theorem get_items_always_empty_witness :
    (get_items (fun _ => []) "sentinel-2-l2a" 19388 30 geom0 [] 12).2.length = 12 ∧
    (get_items (fun _ => []) "sentinel-2-l2a" 19388 30 geom0 [] 12).1 =
      (if (12 : Nat) = 0 then none else some []) :=
  get_items_always_empty (fun _ => []) "sentinel-2-l2a" 19388 30 geom0 [] 12
    (fun _ => rfl)

/-- Counterexample to C1 as stated: against a client whose search always
returns the empty item collection (and the default budget 12), the final
`item_collection` returned by `get_items` is the truthy-tested empty
collection — `some []`, whose `isSome` is `true` — not `None`. -/
theorem get_items_empty_returns_empty_collection :
    (get_items (fun _ => []) "sentinel-2-l2a" 19388 30 geom0 [] 12).1 = some [] ∧
    ((get_items (fun _ => []) "sentinel-2-l2a" 19388 30 geom0 [] 12).1).isSome = true := by
  decide

/-- Every search call the loop issues at 0-based position `i` uses the
date window ending at `e − i·period`. -/
theorem get_items_loop_date_range (searchFn : SearchCall → List Item)
    (collection : String) (search_period : Int) (intersects : Geometry)
    (query : Query) :
    ∀ (fuel : Nat) (e : Int) (prev : Option (List Item)) (i : Nat) (c : SearchCall),
      (get_items_loop searchFn collection search_period intersects query
          fuel e prev).2.get? i = some c →
      c.date_range = get_search_dates (e - i * search_period) search_period := by
  intro fuel
  induction fuel with
  | zero => intro e prev i c hc; simp [get_items_loop] at hc
  | succ n ih =>
    intro e prev i c hc
    rw [get_items_loop_succ] at hc
    by_cases hem : (searchFn
        { collections := [collection], date_range := get_search_dates e search_period,
          intersects := intersects, query := query }).isEmpty
    · simp only [hem, if_true] at hc
      match i with
      | 0 =>
        simp only [List.get?_cons_zero, Option.some.injEq] at hc
        subst hc
        norm_num
      | Nat.succ j =>
        simp only [List.get?_cons_succ] at hc
        have := ih (e - search_period) _ j c hc
        rw [this]
        have harg : e - search_period - j * search_period
            = e - (Nat.succ j) * search_period := by push_cast; ring
        rw [harg]
    · simp only [hem, Bool.false_eq_true, if_false] at hc
      match i with
      | 0 =>
        simp only [List.get?_cons_zero, Option.some.injEq] at hc
        subst hc
        norm_num
      | Nat.succ j => simp at hc

/-- C8: the `i`-th (0-based) catalog search of `get_items` is issued with
the date range whose end is `end_date − i·period` and whose start is
`end_date − (i+1)·period`: each empty iteration steps the window end back
by exactly `period` days. -/
theorem get_items_search_windows (searchFn : SearchCall → List Item)
    (collection : String) (end_date : Int) (search_period : Int)
    (intersects : Geometry) (query : Query) (search_loops : Nat)
    (i : Nat) (c : SearchCall)
    (hc : (get_items searchFn collection end_date search_period intersects query
        search_loops).2.get? i = some c) :
    c.date_range = get_search_dates (end_date - i * search_period) search_period ∧
    c.date_range = formatDate (end_date - (i + 1) * search_period) ++ "/" ++
      formatDate (end_date - i * search_period) := by
  have h1 := get_items_loop_date_range searchFn collection search_period intersects
    query search_loops end_date none i c hc
  refine ⟨h1, ?_⟩
  rw [h1]
  show formatDate (end_date - i * search_period - search_period) ++ "/" ++
      formatDate (end_date - i * search_period) = _
  have harg : end_date - i * search_period - search_period
      = end_date - (i + 1) * search_period := by ring
  rw [harg]

/-- The second search call issued by a two-iteration always-empty run
starting at day 19388 with a 30-day period. -/
def c8call : SearchCall :=
  { collections := ["sentinel-2-l2a"], date_range := get_search_dates 19358 30,
    intersects := geom0, query := [] }

/-- Witness for C8: in a concrete always-empty two-iteration run, the
second search (index 1) uses the window ending 30 days earlier. -/
theorem get_items_search_windows_witness :
    ((get_items (fun _ => []) "sentinel-2-l2a" 19388 30 geom0 [] 2).2.get? 1 =
      some c8call) ∧
    (c8call.date_range = get_search_dates (19388 - (1 : Nat) * 30) 30 ∧
     c8call.date_range = formatDate (19388 - ((1 : Nat) + 1) * 30) ++ "/" ++
       formatDate (19388 - (1 : Nat) * 30)) :=
  ⟨by decide,
   get_items_search_windows (fun _ => []) "sentinel-2-l2a" 19388 30 geom0 [] 2 1
     c8call (by decide)⟩

/-- The query of every call the loop issues is the incoming query value. -/
theorem get_items_loop_query_const (searchFn : SearchCall → List Item)
    (collection : String) (search_period : Int) (intersects : Geometry)
    (query : Query) :
    ∀ (fuel : Nat) (e : Int) (prev : Option (List Item)) (c : SearchCall),
      c ∈ (get_items_loop searchFn collection search_period intersects query
          fuel e prev).2 →
      c.query = query := by
  intro fuel
  induction fuel with
  | zero => intro e prev c hc; simp [get_items_loop] at hc
  | succ n ih =>
    intro e prev c hc
    rw [get_items_loop_succ] at hc
    by_cases hem : (searchFn
        { collections := [collection], date_range := get_search_dates e search_period,
          intersects := intersects, query := query }).isEmpty
    · simp only [hem, if_true, List.mem_cons] at hc
      rcases hc with hc | hc
      · subst hc; rfl
      · exact ih (e - search_period) _ c hc
    · simp only [hem, Bool.false_eq_true, if_false, List.mem_cons, List.not_mem_nil,
        or_false] at hc
      subst hc; rfl

/-- C10: `get_items` never mutates its query argument — the identical
query value is passed to every catalog search across all retry
iterations; the loop steps only the date window and widens no bound. -/
theorem get_items_query_unchanged (searchFn : SearchCall → List Item)
    (collection : String) (end_date : Int) (search_period : Int)
    (intersects : Geometry) (query : Query) (search_loops : Nat)
    (c : SearchCall)
    (hc : c ∈ (get_items searchFn collection end_date search_period intersects query
        search_loops).2) :
    c.query = query :=
  get_items_loop_query_const searchFn collection search_period intersects query
    search_loops end_date none c hc

/-- The cloud-cover query of the repository's default inputs. -/
def q10 : Query := [("eo:cloud_cover", [("gte", Value.int 0), ("lte", Value.int 10)])]

/-- The first search call of a one-iteration run carrying `q10`. -/
def c10call : SearchCall :=
  { collections := ["sentinel-2-l2a"], date_range := get_search_dates 19388 30,
    intersects := geom0, query := q10 }

/-- Witness for C10: in a concrete always-empty run the issued call
carries the caller's cloud-cover query unchanged. -/
theorem get_items_query_unchanged_witness :
    c10call ∈ (get_items (fun _ => []) "sentinel-2-l2a" 19388 30 geom0 q10 1).2 ∧
    c10call.query = q10 :=
  ⟨by decide,
   get_items_query_unchanged (fun _ => []) "sentinel-2-l2a" 19388 30 geom0 q10 1
     c10call (by decide)⟩

/-! ## Claims C3, C7: scene ranking -/

theorem valueLtB_irrefl (a : Value) : valueLtB a a = false := by
  cases a <;> simp [valueLtB]

theorem valueLtB_trans : ∀ {a b c : Value}, valueLtB a b = true →
    valueLtB b c = true → valueLtB a c = true
  | .int _, .int _, .int _, h1, h2 => by
    simp only [valueLtB, decide_eq_true_eq] at h1 h2 ⊢
    omega
  | .int _, .int _, .str _, _, _ => rfl
  | .int _, .str _, .int _, _, h2 => by simp [valueLtB] at h2
  | .int _, .str _, .str _, _, _ => rfl
  | .str _, .int _, _, h1, _ => by simp [valueLtB] at h1
  | .str _, .str _, .int _, _, h2 => by simp [valueLtB] at h2
  | .str _, .str _, .str _, h1, h2 => by
    simp only [valueLtB, decide_eq_true_eq] at h1 h2 ⊢
    exact lt_trans h1 h2

theorem valueLtB_eq_of_not_lt : ∀ {a b : Value}, valueLtB a b = false →
    valueLtB b a = false → a = b
  | .int _, .int _, h1, h2 => by
    simp only [valueLtB, decide_eq_false_iff_not] at h1 h2
    simp only [Value.int.injEq]
    omega
  | .int _, .str _, h1, _ => by simp [valueLtB] at h1
  | .str _, .int _, _, h2 => by simp [valueLtB] at h2
  | .str _, .str _, h1, h2 => by
    simp only [valueLtB, decide_eq_false_iff_not] at h1 h2
    simp only [Value.str.injEq]
    exact le_antisymm (not_lt.mp h2) (not_lt.mp h1)

theorem keyLe_refl (k : List Value) : keyLe k k = true := by
  induction k with
  | nil => rfl
  | cons x xs ih => simp [keyLe, valueLtB_irrefl, ih]

theorem keyLe_total (a b : List Value) : keyLe a b = true ∨ keyLe b a = true := by
  induction a generalizing b with
  | nil => exact Or.inl rfl
  | cons x xs ih =>
    cases b with
    | nil => exact Or.inr rfl
    | cons y ys =>
      cases hxy : valueLtB x y with
      | true => exact Or.inl (by simp [keyLe, hxy])
      | false =>
        cases hyx : valueLtB y x with
        | true => exact Or.inr (by simp [keyLe, hyx])
        | false =>
          rcases ih ys with h | h
          · exact Or.inl (by simp [keyLe, hxy, hyx, h])
          · exact Or.inr (by simp [keyLe, hxy, hyx, h])

theorem keyLe_trans {a b c : List Value} (h1 : keyLe a b = true)
    (h2 : keyLe b c = true) : keyLe a c = true := by
  induction a generalizing b c with
  | nil => rfl
  | cons x xs ih =>
    cases b with
    | nil => simp [keyLe] at h1
    | cons y ys =>
      cases c with
      | nil => simp [keyLe] at h2
      | cons z zs =>
        cases hxy : valueLtB x y with
        | false =>
          cases hyx : valueLtB y x with
          | false =>
            -- the heads x and y are equal values
            obtain rfl : x = y := valueLtB_eq_of_not_lt hxy hyx
            simp only [keyLe, hxy, Bool.false_eq_true, if_false] at h1
            cases hxz : valueLtB x z with
            | false =>
              cases hzx : valueLtB z x with
              | false =>
                obtain rfl : x = z := valueLtB_eq_of_not_lt hxz hzx
                simp only [keyLe, hxz, Bool.false_eq_true, if_false] at h2 ⊢
                exact ih h1 h2
              | true =>
                simp only [keyLe, hxz, hzx, Bool.false_eq_true, if_false,
                  if_true] at h2
            | true => simp [keyLe, hxz]
          | true =>
            simp only [keyLe, hxy, hyx, Bool.false_eq_true, if_false,
              if_true] at h1
        | true =>
          -- x is strictly below y
          cases hyz : valueLtB y z with
          | false =>
            cases hzy : valueLtB z y with
            | false =>
              obtain rfl : y = z := valueLtB_eq_of_not_lt hyz hzy
              simp [keyLe, hxy]
            | true =>
              simp only [keyLe, hyz, hzy, Bool.false_eq_true, if_false,
                if_true] at h2
          | true => simp [keyLe, valueLtB_trans hxy hyz]

instance (ascending : Bool) : IsTotal (Item × List Value) (pairLeP ascending) where
  total a b := by
    cases ascending
    · exact keyLe_total b.2 a.2
    · exact keyLe_total a.2 b.2

instance (ascending : Bool) : IsTrans (Item × List Value) (pairLeP ascending) where
  trans a b c h1 h2 := by
    cases ascending
    · exact keyLe_trans h2 h1
    · exact keyLe_trans h1 h2

/-- The key tuple of an item whose requested properties are all present
(the default of the total lookup never fires then). -/
def sortKeyD (sort_on : List String) (item : Item) : List Value :=
  sort_on.map (fun property => (item.properties.lookup property).getD (Value.int 0))

/-- Decidable check that a requested property is present with a numeric
value (the spec's scenes carry numeric quality properties). -/
def isIntProp (item : Item) (property : String) : Bool :=
  match item.properties.lookup property with
  | some (Value.int _) => true
  | _ => false

theorem isIntProp_isSome {item : Item} {property : String}
    (h : isIntProp item property = true) :
    (item.properties.lookup property).isSome = true := by
  unfold isIntProp at h
  cases hv : item.properties.lookup property with
  | none => rw [hv] at h; simp at h
  | some v => simp

theorem itemKey_ok_of_present (sort_on : List String) (item : Item)
    (h : ∀ p ∈ sort_on, (item.properties.lookup p).isSome = true) :
    itemKey sort_on item = Except.ok (sortKeyD sort_on item) := by
  induction sort_on with
  | nil => rfl
  | cons p ps ih =>
    obtain ⟨v, hv⟩ := Option.isSome_iff_exists.mp (h p (List.mem_cons_self p ps))
    have ihh := ih (fun q hq => h q (List.mem_cons_of_mem p hq))
    unfold itemKey at ihh ⊢
    rw [List.mapM_cons, hv, ihh]
    simp only [sortKeyD, List.map_cons, hv, Option.getD_some]
    rfl

theorem decorate_ok (sort_on : List String) (items : List Item)
    (h : ∀ it ∈ items, ∀ p ∈ sort_on, (it.properties.lookup p).isSome = true) :
    (items.mapM (fun item => do
        let key ← itemKey sort_on item
        pure (item, key)) : Except StacError (List (Item × List Value)))
      = Except.ok (items.map (fun it => (it, sortKeyD sort_on it))) := by
  induction items with
  | nil => rfl
  | cons it its ih =>
    have h1 := itemKey_ok_of_present sort_on it
      (fun p hp => h it (List.mem_cons_self it its) p hp)
    have h2 := ih (fun i hi p hp => h i (List.mem_cons_of_mem it hi) p hp)
    rw [List.mapM_cons, h1, h2]
    rfl

/-- C3: for every item collection and every non-empty list of sort keys
whose (numeric) values are present on every item, `sort_items` with
`ascending=True` succeeds and returns a permutation of the items that is
sorted ascending by the lexicographic tuple of the named property values
and keeps tied items in their original relative order; in particular,
items with cloud-cover values `[50, 0]` sorted ascending on
`["eo:cloud_cover"]` come back as `[item_with_0, item_with_50]`. -/
theorem sort_items_sorted_stable :
    (∀ (items : List Item) (sort_on : List String), sort_on ≠ [] →
      (∀ it ∈ items, ∀ p ∈ sort_on, isIntProp it p = true) →
      ∃ out, sort_items items sort_on true = Except.ok out ∧
        out.Perm items ∧
        out.Pairwise (fun a b =>
          keyLe (sortKeyD sort_on a) (sortKeyD sort_on b) = true) ∧
        (∀ a b, [a, b].Sublist items →
          sortKeyD sort_on a = sortKeyD sort_on b → [a, b].Sublist out)) ∧
    sort_items [itemCloud50, itemCloud0] ["eo:cloud_cover"] true =
      Except.ok [itemCloud0, itemCloud50] := by
  constructor
  · intro items sort_on _hne h
    have hmap := decorate_ok sort_on items
      (fun it hit p hp => isIntProp_isSome (h it hit p hp))
    refine ⟨(List.insertionSort (pairLeP true)
        (items.map (fun it => (it, sortKeyD sort_on it)))).map Prod.fst, ?_, ?_, ?_, ?_⟩
    · unfold sort_items
      rw [hmap]
      rfl
    · have hkeyed : (items.map (fun it => (it, sortKeyD sort_on it))).map Prod.fst
          = items := by
        rw [List.map_map]
        exact List.map_id items
      have hperm :=
        (List.perm_insertionSort (pairLeP true)
          (items.map (fun it => (it, sortKeyD sort_on it)))).map Prod.fst
      rw [hkeyed] at hperm
      exact hperm
    · have hs := List.sorted_insertionSort (pairLeP true)
        (items.map (fun it => (it, sortKeyD sort_on it)))
      rw [List.pairwise_map]
      refine List.Pairwise.imp_of_mem ?_ hs
      intro pa pb hpa hpb hr
      obtain ⟨a, _, rfl⟩ :=
        List.mem_map.mp ((List.mem_insertionSort _).mp hpa)
      obtain ⟨b, _, rfl⟩ :=
        List.mem_map.mp ((List.mem_insertionSort _).mp hpb)
      exact hr
    · intro a b hsub heq
      have hsub' := hsub.map (fun it => (it, sortKeyD sort_on it))
      have hab : pairLeP true (a, sortKeyD sort_on a) (b, sortKeyD sort_on b) := by
        show keyLe (sortKeyD sort_on a) (sortKeyD sort_on b) = true
        rw [heq]
        exact keyLe_refl _
      have hst := List.pair_sublist_insertionSort hab hsub'
      have := hst.map Prod.fst
      simpa using this
  · decide

/-- Witness for C3 at the test fixture: cloud covers `[50, 0]`, sort key
`["eo:cloud_cover"]`, ascending. -/
theorem sort_items_sorted_stable_witness :
    (["eo:cloud_cover"] ≠ ([] : List String)) ∧
    (∃ out, sort_items [itemCloud50, itemCloud0] ["eo:cloud_cover"] true =
        Except.ok out ∧
      out.Perm [itemCloud50, itemCloud0] ∧
      out.Pairwise (fun a b =>
        keyLe (sortKeyD ["eo:cloud_cover"] a) (sortKeyD ["eo:cloud_cover"] b) = true) ∧
      (∀ a b, [a, b].Sublist [itemCloud50, itemCloud0] →
        sortKeyD ["eo:cloud_cover"] a = sortKeyD ["eo:cloud_cover"] b →
        [a, b].Sublist out)) :=
  ⟨by decide,
   sort_items_sorted_stable.1 [itemCloud50, itemCloud0] ["eo:cloud_cover"]
     (by decide) (by decide)⟩

theorem itemKey_shape (sort_on : List String) (item : Item) :
    (∃ key, itemKey sort_on item = Except.ok key) ∨
    (∃ k, itemKey sort_on item = Except.error (StacError.missingProperty k)) := by
  induction sort_on with
  | nil => exact Or.inl ⟨[], rfl⟩
  | cons p ps ih =>
    cases hv : item.properties.lookup p with
    | none =>
      refine Or.inr ⟨p, ?_⟩
      unfold itemKey
      rw [List.mapM_cons, hv]
      rfl
    | some v =>
      rcases ih with ⟨key, hk⟩ | ⟨k, hk⟩
      · refine Or.inl ⟨v :: key, ?_⟩
        unfold itemKey at hk ⊢
        rw [List.mapM_cons, hv, hk]
        rfl
      · refine Or.inr ⟨k, ?_⟩
        unfold itemKey at hk ⊢
        rw [List.mapM_cons, hv, hk]
        rfl

theorem itemKey_ok_lookup (sort_on : List String) (item : Item) (key : List Value)
    (h : itemKey sort_on item = Except.ok key) :
    ∀ p ∈ sort_on, (item.properties.lookup p).isSome = true := by
  induction sort_on generalizing key with
  | nil => intro p hp; simp at hp
  | cons q qs ih =>
    intro p hp
    cases hv : item.properties.lookup q with
    | none =>
      exfalso
      unfold itemKey at h
      rw [List.mapM_cons, hv] at h
      exact Except.noConfusion h
    | some v =>
      rcases List.mem_cons.mp hp with rfl | hp'
      · simp [hv]
      · have htail : ∃ key', itemKey qs item = Except.ok key' := by
          rcases itemKey_shape qs item with hok | ⟨k, hk⟩
          · exact hok
          · exfalso
            unfold itemKey at h hk
            rw [List.mapM_cons, hv, hk] at h
            exact Except.noConfusion h
        obtain ⟨key', hk'⟩ := htail
        exact ih key' hk' p hp'

theorem decorate_shape (sort_on : List String) (items : List Item) :
    (∃ keyed, (items.mapM (fun item => do
        let key ← itemKey sort_on item
        pure (item, key)) : Except StacError (List (Item × List Value)))
      = Except.ok keyed) ∨
    (∃ k, (items.mapM (fun item => do
        let key ← itemKey sort_on item
        pure (item, key)) : Except StacError (List (Item × List Value)))
      = Except.error (StacError.missingProperty k)) := by
  induction items with
  | nil => exact Or.inl ⟨[], rfl⟩
  | cons it its ih =>
    rcases itemKey_shape sort_on it with ⟨key, hk⟩ | ⟨k, hk⟩
    · rcases ih with ⟨keyed, hkd⟩ | ⟨k, hkd⟩
      · refine Or.inl ⟨(it, key) :: keyed, ?_⟩
        rw [List.mapM_cons, hk, hkd]
        rfl
      · refine Or.inr ⟨k, ?_⟩
        rw [List.mapM_cons, hk, hkd]
        rfl
    · refine Or.inr ⟨k, ?_⟩
      rw [List.mapM_cons, hk]
      rfl

theorem decorate_ok_all (sort_on : List String) (items : List Item)
    (keyed : List (Item × List Value))
    (h : (items.mapM (fun item => do
        let key ← itemKey sort_on item
        pure (item, key)) : Except StacError (List (Item × List Value)))
      = Except.ok keyed) :
    ∀ it ∈ items, ∃ key, itemKey sort_on it = Except.ok key := by
  induction items generalizing keyed with
  | nil => intro it hit; simp at hit
  | cons i its ih =>
    intro it hit
    rcases itemKey_shape sort_on i with ⟨key, hk⟩ | ⟨k, hk⟩
    · rcases List.mem_cons.mp hit with rfl | hit'
      · exact ⟨key, hk⟩
      · rcases decorate_shape sort_on its with ⟨keyed', hkd⟩ | ⟨k, hkd⟩
        · exact ih keyed' hkd it hit'
        · exfalso
          rw [List.mapM_cons, hk, hkd] at h
          exact Except.noConfusion h
    · exfalso
      rw [List.mapM_cons, hk] at h
      exact Except.noConfusion h

/-- C7: if any scene lacks one of the requested sort properties then
`sort_items` fails with `MissingPropertyError` (the `KeyError` of
`item.properties[property]`). -/
theorem sort_items_missing_property (items : List Item) (sort_on : List String)
    (ascending : Bool)
    (h : ∃ it ∈ items, ∃ p ∈ sort_on, it.properties.lookup p = none) :
    ∃ k, sort_items items sort_on ascending =
      Except.error (StacError.missingProperty k) := by
  obtain ⟨it, hit, p, hp, hnone⟩ := h
  rcases decorate_shape sort_on items with ⟨keyed, hkd⟩ | ⟨k, hkd⟩
  · exfalso
    obtain ⟨key, hk⟩ := decorate_ok_all sort_on items keyed hkd it hit
    have := itemKey_ok_lookup sort_on it key hk p hp
    rw [hnone] at this
    simp at this
  · refine ⟨k, ?_⟩
    unfold sort_items
    rw [hkd]
    rfl

/-- Witness for C7: the scenario scene lacks
`s2:nodata_pixel_percentage`. -/
theorem sort_items_missing_property_witness :
    (∃ it ∈ [sceneItem0], ∃ p ∈ ["s2:nodata_pixel_percentage"],
      it.properties.lookup p = none) ∧
    (∃ k, sort_items [sceneItem0] ["s2:nodata_pixel_percentage"] true =
      Except.error (StacError.missingProperty k)) :=
  ⟨by decide,
   sort_items_missing_property [sceneItem0] ["s2:nodata_pixel_percentage"] true
     (by decide)⟩

/-! ## Claim C5: enrichment and the shallow feature copy -/

/-- The properties dict of the selected feature before map composition. -/
def featureProps0 : PyDict := [("Name", "Example Crater")]

/-- The heap holding that single properties dict at address 0. -/
def store0 : Store := { dicts := [featureProps0] }

/-- The caller's selected feature, whose `"properties"` entry references
address 0. -/
def feature0 : FeatureObj := { geometry := some geom0, propsRef := 0 }

/-- C5 fails on the code: `feature.copy()` is a shallow copy, so
`feature["properties"].update(...)` inside `_add_stac_info_to_feature`
mutates the properties dict shared with the caller's original feature.
Concretely: before the enrichment step the original feature's properties
dict has no `"Date"` key; after enriching the *copy*, dereferencing the
*original* feature's properties reference yields the enriched dict —
`"Date"` present and all three derived display fields appended. -/
theorem enrich_feature_step_mutates_original :
    (Store.read store0 feature0.propsRef).lookup "Date" = none ∧
    (enrich_feature_step store0 feature0 sceneItem0 "visual").map
        (fun sf => (Store.read sf.1 feature0.propsRef).lookup "Date")
      = Except.ok (some "2023-01-01") ∧
    (enrich_feature_step store0 feature0 sceneItem0 "visual").map
        (fun sf => Store.read sf.1 feature0.propsRef)
      = Except.ok (featureProps0 ++
          [("Date", "2023-01-01"),
           ("STAC Item", link_str sceneItem0.self_href sceneItem0.id),
           ("Download", link_str "https://example/scene.tif" "click here")]) := by
  decide

end StacTilerMap
